import Mathlib

/-!
# QAndroidDialog: a shallow embedding of `QtAndroidHelpers/QAndroidDialog.cpp`

The C++ class is a thin bridge to a Java `DialogHelper` object.  Its member
functions are embedded as pure functions that take the object (and the static
data of the class) and return the new object together with the ordered list of
observable effects: log lines, calls on the Java side, emitted Qt signals and
the `deleteLater()` request.
-/

namespace QtAndroidHelpers

/-! ## Data model -/

/-- Qt string; `QString::null` is carried as `none`. -/
abbrev QString := Option String

/-- The null string `QString::null` passed by the two short `showMessage` overloads. -/
def QString.null : QString := none

/-- Reference to the Java-side `DialogHelper` object held inside the `QJniObject`. -/
abbrev Handle := Nat

/-- The constant `c_full_class_name_`. -/
def c_full_class_name_ : String := "ru/dublgis/androidhelpers/DialogHelper"

/-- The stream a log line is written to: `qDebug()`, `qWarning()` or `qCritical()`. -/
inductive LogLevel where
  | debug
  | warning
  | critical
  deriving DecidableEq, Repr

/-- One operand streamed into a log line with `<<`. -/
inductive LogItem where
  | text (s : String)
  | qstring (s : QString)
  | int (n : Int)
  deriving DecidableEq, Repr

/-- The Qt signals of the class. `closed_int` is `closed(int)`, `closed` is `closed()`. -/
inductive Signal where
  | positiveClicked
  | negativeClicked
  | neutralClicked
  | cancelled
  | closed_int (button : Int)
  | closed
  deriving DecidableEq, Repr

/-- Calls that cross into the Java side. -/
inductive HostCall where
  /-- The call `QAndroidQPAPluginGap::preloadJavaClass(c_full_class_name_)` -/
  | preloadJavaClass (cls : String)
  /-- The call `ov.registerNativeMethods(methods, sizeof(methods))`, by Java method name -/
  | registerNativeMethods (cls : String) (methods : List String)
  /-- The Java constructor call of `new QJniObject(c_full_class_name_, "J", (jlong)this)` -/
  | create (cls : String) (param : Int)
  /-- The call `dialog_helper_->callVoid("cppDestroyed")` -/
  | cppDestroyed (h : Handle)
  /-- The call `dialog_helper_->callParamVoid("showMessage", ...)` with its eight arguments -/
  | showMessage (h : Handle) (title explanation positive_button_text negative_button_text
      neutral_button_text : QString) (pause : Bool) (orientation : Int) (in_activity : Bool)
  /-- The call `dialog_helper_.reset()` on a non-null pointer: the `QJniObject` is deleted -/
  | release (h : Handle)
  deriving DecidableEq, Repr

/-- Observable effects, in program order. -/
inductive Event where
  | log (level : LogLevel) (items : List LogItem)
  | host (c : HostCall)
  | emit (s : Signal)
  | deleteLater
  deriving DecidableEq, Repr

/-- Modelled from the spec: the header `QAndroidDialog.h`, which defines the three
`ANDROID_DIALOGINTERFACE_BUTTON_*` constants used as `case` labels, is not among the
sources, so the constants are taken as parameters. -/
structure ButtonCodes where
  ANDROID_DIALOGINTERFACE_BUTTON_POSITIVE : Int
  ANDROID_DIALOGINTERFACE_BUTTON_NEGATIVE : Int
  ANDROID_DIALOGINTERFACE_BUTTON_NEUTRAL : Int
  deriving DecidableEq, Repr

/-- The four `case` labels of the `switch` in `showMessageCallback` are pairwise
distinct; C++ rejects a `switch` with two equal labels. -/
def ButtonCodes.Distinct (c : ButtonCodes) : Prop :=
  c.ANDROID_DIALOGINTERFACE_BUTTON_POSITIVE ≠ c.ANDROID_DIALOGINTERFACE_BUTTON_NEGATIVE ∧
  c.ANDROID_DIALOGINTERFACE_BUTTON_POSITIVE ≠ c.ANDROID_DIALOGINTERFACE_BUTTON_NEUTRAL ∧
  c.ANDROID_DIALOGINTERFACE_BUTTON_NEGATIVE ≠ c.ANDROID_DIALOGINTERFACE_BUTTON_NEUTRAL ∧
  c.ANDROID_DIALOGINTERFACE_BUTTON_POSITIVE ≠ 0 ∧
  c.ANDROID_DIALOGINTERFACE_BUTTON_NEGATIVE ≠ 0 ∧
  c.ANDROID_DIALOGINTERFACE_BUTTON_NEUTRAL ≠ 0

instance (c : ButtonCodes) : Decidable c.Distinct := by
  unfold ButtonCodes.Distinct; infer_instance

/-- The values of `android.content.DialogInterface`, used for concrete instances. -/
def androidCodes : ButtonCodes := ⟨-1, -2, -3⟩

/-- The two collaborators queried by `showMessage`:
`QAndroidQPAPluginGap::customContextSet()` and
`QAndroidScreenOrientation::getCurrentFixedOrientation()`. -/
structure Environment where
  customContextSet : Bool
  getCurrentFixedOrientation : Int
  deriving DecidableEq, Repr

/-- Static data: `QAndroidDialog::interactive_` and the function-local
`static bool s_preloaded` of `preloadJavaClasses`. -/
structure Statics where
  interactive_ : Bool
  s_preloaded : Bool
  deriving DecidableEq, Repr

/-- Static initialisation: `interactive_ = true`, `s_preloaded = false`. -/
def Statics.initial : Statics := ⟨true, false⟩

/-- The data members of a `QAndroidDialog`. `dialog_helper_` is the
`QScopedPointer<QJniObject>`; `none` is the null pointer. -/
structure QAndroidDialog where
  dialog_helper_ : Option Handle
  delete_self_on_close_ : Bool
  result_button_ : Int
  deriving DecidableEq, Repr

/-! ## Observations on an effect list -/

/-- The signals emitted, in order. -/
def signals : List Event → List Signal
  | [] => []
  | Event.emit s :: es => s :: signals es
  | _ :: es => signals es

/-- The calls made on the Java side, in order. -/
def hostCalls : List Event → List HostCall
  | [] => []
  | Event.host c :: es => c :: hostCalls es
  | _ :: es => hostCalls es

/-- The levels of the log lines written, in order. -/
def logLevels : List Event → List LogLevel
  | [] => []
  | Event.log l _ :: es => l :: logLevels es
  | _ :: es => logLevels es

/-- Whether a signal is one of the four outcome signals. -/
def Signal.isSpecific : Signal → Bool
  | .positiveClicked => true
  | .negativeClicked => true
  | .neutralClicked => true
  | .cancelled => true
  | .closed_int _ => false
  | .closed => false

/-! ## Static members -/

/-- Static member `QAndroidDialog::preloadJavaClasses()`. -/
def preloadJavaClasses (st : Statics) : Statics × List Event :=
  if !st.s_preloaded then
    ({ st with s_preloaded := true },
      [Event.host (.preloadJavaClass c_full_class_name_),
       Event.host (.registerNativeMethods c_full_class_name_
         ["getActivity", "getContext", "showMessageCallback"])])
  else
    (st, [])

/-- Static member `QAndroidDialog::setInteractiveMode(bool interactive)`. -/
def setInteractiveMode (st : Statics) (interactive : Bool) : Statics :=
  if st.interactive_ != interactive then
    { st with interactive_ := interactive }
  else
    st

/-- Static member `QAndroidDialog::isInteractiveMode()`. -/
def isInteractiveMode (st : Statics) : Bool :=
  st.interactive_

/-! ## Constructor and destructor -/

/-- Constructor `QAndroidDialog::QAndroidDialog(QObject * parent)`. `this` is the address of the
object under construction, passed to Java as `(jlong)this`; `jObject` is what
`dialog_helper_->jObject()` holds after the Java constructor ran (`none`: null). -/
def QAndroidDialog.constructor (st : Statics) (this : Int) (jObject : Option Handle) :
    Statics × QAndroidDialog × List Event :=
  let p := preloadJavaClasses st
  let created := [Event.host (.create c_full_class_name_ this)]
  match jObject with
  | some h =>
    (p.1, ⟨some h, false, 0⟩, p.2 ++ created)
  | none =>
    (p.1, ⟨none, false, 0⟩,
      p.2 ++ created ++
        [Event.log .critical [.text "Failed to create DialogHelper instance!"]])

/-- Destructor `QAndroidDialog::~QAndroidDialog()`. -/
def QAndroidDialog.destructor (self : QAndroidDialog) : QAndroidDialog × List Event :=
  match self.dialog_helper_ with
  | some h =>
    ({ self with dialog_helper_ := none },
      [Event.host (.cppDestroyed h), Event.host (.release h)])
  | none => (self, [])

/-! ## showMessage -/

/-- Member `QAndroidDialog::showMessage` with three button texts. -/
def QAndroidDialog.showMessage (st : Statics) (env : Environment) (self : QAndroidDialog)
    (title explanation positive_button_text negative_button_text neutral_button_text : QString)
    (pause lock_rotation : Bool) : QAndroidDialog × List Event :=
  if !isInteractiveMode st then
    (self,
      [Event.log .debug [.text "Dialog was not shown due to non-interactive mode"],
       Event.log .debug [.text "title: \"", .qstring title, .text "\""],
       Event.log .debug [.text "explanation: ", .qstring explanation, .text "\""]])
  else
    match self.dialog_helper_ with
    | some h =>
      let lock_rotation := if pause then true else lock_rotation
      let in_activity := !env.customContextSet
      let orientation : Int :=
        if lock_rotation && in_activity then env.getCurrentFixedOrientation else -1
      (self,
        [Event.host (.showMessage h title explanation positive_button_text
          negative_button_text neutral_button_text pause orientation in_activity)])
    | none =>
      (self,
        [Event.log .critical
          [.text "Failed to show message because DialogHelper instance not created!"]])

/-- Member `QAndroidDialog::showMessage` with two button texts. -/
def QAndroidDialog.showMessage_2 (st : Statics) (env : Environment) (self : QAndroidDialog)
    (title explanation positive_button_text negative_button_text : QString)
    (pause lock_rotation : Bool) : QAndroidDialog × List Event :=
  self.showMessage st env title explanation positive_button_text negative_button_text
    QString.null pause lock_rotation

/-- Member `QAndroidDialog::showMessage` with one button text. -/
def QAndroidDialog.showMessage_1 (st : Statics) (env : Environment) (self : QAndroidDialog)
    (title explanation positive_button_text : QString)
    (pause lock_rotation : Bool) : QAndroidDialog × List Event :=
  self.showMessage st env title explanation positive_button_text QString.null
    QString.null pause lock_rotation

/-! ## showMessageCallback -/

/-- Member `QAndroidDialog::showMessageCallback(int button)`. The `switch` is read as a chain
of comparisons in label order. -/
def QAndroidDialog.showMessageCallback (codes : ButtonCodes) (self : QAndroidDialog)
    (button : Int) : QAndroidDialog × List Event :=
  let self1 := { self with result_button_ := button }
  let switched : List Event :=
    if button = codes.ANDROID_DIALOGINTERFACE_BUTTON_POSITIVE then
      [Event.emit .positiveClicked]
    else if button = codes.ANDROID_DIALOGINTERFACE_BUTTON_NEGATIVE then
      [Event.emit .negativeClicked]
    else if button = codes.ANDROID_DIALOGINTERFACE_BUTTON_NEUTRAL then
      [Event.emit .neutralClicked]
    else if button = 0 then
      [Event.emit .cancelled]
    else
      [Event.log .warning
        [.text "Unexpected button number in showMessageCallback:", .int button]]
  (self1,
    [Event.log .debug [.text "showMessageCallback", .int button]] ++ switched ++
      [Event.emit (.closed_int button), Event.emit .closed] ++
      (if self1.delete_self_on_close_ then [Event.deleteLater] else []))

/-- Modelled from the spec: the setter of the self-destruct flag is declared in the
header `QAndroidDialog.h`, which is not among the sources; "configured to self-destruct
on close" is read as an assignment to `delete_self_on_close_`. -/
def QAndroidDialog.setDeleteSelfOnClose (self : QAndroidDialog) (del : Bool) :
    QAndroidDialog :=
  { self with delete_self_on_close_ := del }

/-- The `(pause, orientation, in_activity)` arguments of the `showMessage` calls made
on the Java side, in order. -/
def hostShowMessageArgs : List Event → List (Bool × Int × Bool)
  | [] => []
  | Event.host (.showMessage _ _ _ _ _ _ pause orientation in_activity) :: es =>
    (pause, orientation, in_activity) :: hostShowMessageArgs es
  | _ :: es => hostShowMessageArgs es

/-! ## Objects in memory and the JNI entry point -/

/-- The live `QAndroidDialog` objects by address; `none` at an address where no object
lives (never constructed, or already destroyed). -/
abbrev Heap := Int → Option QAndroidDialog

/-- The heap with no object. -/
def Heap.empty : Heap := fun _ => none

/-- Store or erase the object at one address. -/
def Heap.set (heap : Heap) (addr : Int) (obj : Option QAndroidDialog) : Heap :=
  fun a => if a = addr then obj else heap a

/-- Construction of a `QAndroidDialog` at address `this`. -/
def construct (st : Statics) (heap : Heap) (this : Int) (jObject : Option Handle) :
    Statics × Heap × List Event :=
  let c := QAndroidDialog.constructor st this jObject
  (c.1, heap.set this (some c.2.1), c.2.2)

/-- Destruction of the object at address `this`: the destructor body runs and the
object stops living. `none`: there is no object at `this` to destroy. -/
def destroy (heap : Heap) (this : Int) : Option (Heap × List Event) :=
  match heap this with
  | some obj => some (heap.set this none, obj.destructor.2)
  | none => none

/-- The warning written by the JNI entry point when it drops a callback. -/
def zeroParamWarning (button : Int) : Event :=
  Event.log .warning
    [.text "Java_DialogHelper_DialogHelper_showMessageCallback",
     .text "Zero param, button =", .int button]

/-- JNI entry point `Java_DialogHelper_DialogHelper_showMessageCallback(env, obj, param,
button)`. The pointer `proxy` is `param` reinterpreted, so it carries the same number.
`none`: the member call goes through a pointer at which no object lives; C++ gives
such a call no defined behaviour. -/
def Java_DialogHelper_DialogHelper_showMessageCallback (codes : ButtonCodes) (heap : Heap)
    (param : Int) (button : Int) : Option (Heap × List Event) :=
  if param ≠ 0 then
    let proxy := param
    if proxy ≠ 0 then
      match heap proxy with
      | some obj =>
        let r := obj.showMessageCallback codes button
        some (heap.set proxy (some r.1), r.2)
      | none => none
    else
      some (heap, [zeroParamWarning button])
  else
    some (heap, [zeroParamWarning button])

/-! ## Sequences of operations on one bridge -/

/-- The operations a client or the Java side can perform on a constructed bridge. -/
inductive Op where
  | setInteractiveMode (interactive : Bool)
  | setDeleteSelfOnClose (del : Bool)
  | showMessage (env : Environment) (title explanation positive_button_text
      negative_button_text neutral_button_text : QString) (pause lock_rotation : Bool)
  | showMessage_2 (env : Environment) (title explanation positive_button_text
      negative_button_text : QString) (pause lock_rotation : Bool)
  | showMessage_1 (env : Environment) (title explanation positive_button_text : QString)
      (pause lock_rotation : Bool)
  | showMessageCallback (button : Int)
  deriving DecidableEq, Repr

/-- One operation on the static data and the bridge. -/
def step (codes : ButtonCodes) (s : Statics × QAndroidDialog) :
    Op → (Statics × QAndroidDialog) × List Event
  | .setInteractiveMode b => ((setInteractiveMode s.1 b, s.2), [])
  | .setDeleteSelfOnClose b => ((s.1, s.2.setDeleteSelfOnClose b), [])
  | .showMessage env t e p n u pause lock =>
    let r := s.2.showMessage s.1 env t e p n u pause lock
    ((s.1, r.1), r.2)
  | .showMessage_2 env t e p n pause lock =>
    let r := s.2.showMessage_2 s.1 env t e p n pause lock
    ((s.1, r.1), r.2)
  | .showMessage_1 env t e p pause lock =>
    let r := s.2.showMessage_1 s.1 env t e p pause lock
    ((s.1, r.1), r.2)
  | .showMessageCallback button =>
    let r := s.2.showMessageCallback codes button
    ((s.1, r.1), r.2)

/-- A sequence of operations, with the effects of all of them in order. -/
def run (codes : ButtonCodes) (s : Statics × QAndroidDialog) :
    List Op → (Statics × QAndroidDialog) × List Event
  | [] => (s, [])
  | op :: ops =>
    let r := step codes s op
    let rest := run codes r.1 ops
    (rest.1, r.2 ++ rest.2)

/-- The outcome signal selected by the `switch` of `showMessageCallback`, if any. -/
def outcomeSignal (codes : ButtonCodes) (button : Int) : List Signal :=
  if button = codes.ANDROID_DIALOGINTERFACE_BUTTON_POSITIVE then [Signal.positiveClicked]
  else if button = codes.ANDROID_DIALOGINTERFACE_BUTTON_NEGATIVE then [Signal.negativeClicked]
  else if button = codes.ANDROID_DIALOGINTERFACE_BUTTON_NEUTRAL then [Signal.neutralClicked]
  else if button = 0 then [Signal.cancelled]
  else []

/-! ## Helper lemmas -/

theorem signals_append (xs ys : List Event) :
    signals (xs ++ ys) = signals xs ++ signals ys := by
  induction xs with
  | nil => rfl
  | cons x xs ih => cases x <;> simp [signals, ih]

theorem hostCalls_append (xs ys : List Event) :
    hostCalls (xs ++ ys) = hostCalls xs ++ hostCalls ys := by
  induction xs with
  | nil => rfl
  | cons x xs ih => cases x <;> simp [hostCalls, ih]

theorem logLevels_append (xs ys : List Event) :
    logLevels (xs ++ ys) = logLevels xs ++ logLevels ys := by
  induction xs with
  | nil => rfl
  | cons x xs ih => cases x <;> simp [logLevels, ih]

theorem isInteractiveMode_setInteractiveMode (st : Statics) (b : Bool) :
    isInteractiveMode (setInteractiveMode st b) = b := by
  cases st with
  | mk i p => cases i <;> cases b <;> rfl

theorem signals_showMessageCallback (codes : ButtonCodes) (self : QAndroidDialog)
    (button : Int) :
    signals (self.showMessageCallback codes button).2 =
      outcomeSignal codes button ++ [Signal.closed_int button, Signal.closed] := by
  unfold QAndroidDialog.showMessageCallback outcomeSignal
  cases self.delete_self_on_close_ <;> simp only [signals_append] <;>
    split_ifs <;> simp [signals]

theorem logLevels_showMessageCallback (codes : ButtonCodes) (self : QAndroidDialog)
    (button : Int) :
    logLevels (self.showMessageCallback codes button).2 =
      LogLevel.debug :: (if outcomeSignal codes button = [] then [LogLevel.warning] else []) := by
  unfold QAndroidDialog.showMessageCallback outcomeSignal
  cases self.delete_self_on_close_ <;> simp only [logLevels_append] <;>
    split_ifs <;> simp_all [logLevels]

theorem hostCalls_showMessageCallback (codes : ButtonCodes) (self : QAndroidDialog)
    (button : Int) :
    hostCalls (self.showMessageCallback codes button).2 = [] := by
  unfold QAndroidDialog.showMessageCallback
  cases self.delete_self_on_close_ <;> simp only [hostCalls_append] <;>
    split_ifs <;> simp [hostCalls]

theorem showMessage_disabled (st : Statics) (env : Environment) (self : QAndroidDialog)
    (hn : self.dialog_helper_ = none)
    (title explanation positive_button_text negative_button_text neutral_button_text : QString)
    (pause lock_rotation : Bool) :
    (self.showMessage st env title explanation positive_button_text negative_button_text
      neutral_button_text pause lock_rotation).1 = self ∧
    hostCalls (self.showMessage st env title explanation positive_button_text
      negative_button_text neutral_button_text pause lock_rotation).2 = [] ∧
    signals (self.showMessage st env title explanation positive_button_text
      negative_button_text neutral_button_text pause lock_rotation).2 = [] := by
  cases hi : st.interactive_ <;>
    simp [QAndroidDialog.showMessage, isInteractiveMode, hi, hn, hostCalls, signals]

theorem step_disabled (codes : ButtonCodes) (s : Statics × QAndroidDialog)
    (hn : s.2.dialog_helper_ = none) (op : Op) :
    (step codes s op).1.2.dialog_helper_ = none ∧ hostCalls (step codes s op).2 = [] := by
  cases op with
  | setInteractiveMode b => exact ⟨hn, rfl⟩
  | setDeleteSelfOnClose b => exact ⟨hn, rfl⟩
  | showMessage env t e p n u pause lock =>
    have h := showMessage_disabled s.1 env s.2 hn t e p n u pause lock
    exact ⟨by simp only [step]; rw [h.1]; exact hn, h.2.1⟩
  | showMessage_2 env t e p n pause lock =>
    have h := showMessage_disabled s.1 env s.2 hn t e p n QString.null pause lock
    exact ⟨by simp only [step, QAndroidDialog.showMessage_2]; rw [h.1]; exact hn, h.2.1⟩
  | showMessage_1 env t e p pause lock =>
    have h := showMessage_disabled s.1 env s.2 hn t e p QString.null QString.null pause lock
    exact ⟨by simp only [step, QAndroidDialog.showMessage_1]; rw [h.1]; exact hn, h.2.1⟩
  | showMessageCallback button =>
    exact ⟨hn, hostCalls_showMessageCallback codes s.2 button⟩

theorem run_disabled (codes : ButtonCodes) (ops : List Op) :
    ∀ s : Statics × QAndroidDialog, s.2.dialog_helper_ = none →
      (run codes s ops).1.2.dialog_helper_ = none ∧ hostCalls (run codes s ops).2 = [] := by
  induction ops with
  | nil => intro s hn; exact ⟨hn, rfl⟩
  | cons op ops ih =>
    intro s hn
    have h1 := step_disabled codes s hn op
    have h2 := ih (step codes s op).1 h1.1
    refine ⟨h2.1, ?_⟩
    simp only [run, hostCalls_append, h1.2, h2.2, List.append_nil]

theorem callback_on_live_object (codes : ButtonCodes) (heap : Heap) (param button : Int)
    (obj : QAndroidDialog) (hp : param ≠ 0) (hl : heap param = some obj) :
    Java_DialogHelper_DialogHelper_showMessageCallback codes heap param button =
      some (heap.set param (some (obj.showMessageCallback codes button).1),
        (obj.showMessageCallback codes button).2) := by
  simp only [Java_DialogHelper_DialogHelper_showMessageCallback, hl]
  simp [hp]

/-! ## Theorems -/

/-- C1: for a button code equal to one of the four case labels (positive, negative,
neutral, 0), `showMessageCallback` emits exactly one outcome signal, the matching one,
followed by `closed(code)` and `closed()` and no other signal, and leaves
`result_button_` equal to the code. -/
theorem showMessageCallback_known_code (codes : ButtonCodes) (hd : codes.Distinct)
    (self : QAndroidDialog) (button : Int)
    (hb : button = codes.ANDROID_DIALOGINTERFACE_BUTTON_POSITIVE ∨
          button = codes.ANDROID_DIALOGINTERFACE_BUTTON_NEGATIVE ∨
          button = codes.ANDROID_DIALOGINTERFACE_BUTTON_NEUTRAL ∨ button = 0) :
    (∃ s, s.isSpecific = true ∧
      signals (self.showMessageCallback codes button).2 =
        [s, Signal.closed_int button, Signal.closed]) ∧
    (button = codes.ANDROID_DIALOGINTERFACE_BUTTON_POSITIVE →
      signals (self.showMessageCallback codes button).2 =
        [Signal.positiveClicked, Signal.closed_int button, Signal.closed]) ∧
    (button = codes.ANDROID_DIALOGINTERFACE_BUTTON_NEGATIVE →
      signals (self.showMessageCallback codes button).2 =
        [Signal.negativeClicked, Signal.closed_int button, Signal.closed]) ∧
    (button = codes.ANDROID_DIALOGINTERFACE_BUTTON_NEUTRAL →
      signals (self.showMessageCallback codes button).2 =
        [Signal.neutralClicked, Signal.closed_int button, Signal.closed]) ∧
    (button = 0 →
      signals (self.showMessageCallback codes button).2 =
        [Signal.cancelled, Signal.closed_int button, Signal.closed]) ∧
    (self.showMessageCallback codes button).1.result_button_ = button := by
  obtain ⟨h1, h2, h3, h4, h5, h6⟩ := hd
  have h1s := h1.symm
  have h2s := h2.symm
  have h3s := h3.symm
  have h4s := h4.symm
  have h5s := h5.symm
  have h6s := h6.symm
  rw [signals_showMessageCallback]
  rcases hb with hb | hb | hb | hb
  all_goals
    subst hb
    simp [QAndroidDialog.showMessageCallback, outcomeSignal, Signal.isSpecific, *]

/-- C1 at the Android codes, positive button on a fresh bridge. -/
theorem showMessageCallback_known_code_witness :
    androidCodes.Distinct ∧
    signals ((QAndroidDialog.mk (some 7) false 0).showMessageCallback androidCodes (-1)).2 =
      [Signal.positiveClicked, Signal.closed_int (-1), Signal.closed] :=
  ⟨by decide,
   (showMessageCallback_known_code androidCodes (by decide) ⟨some 7, false, 0⟩ (-1)
      (Or.inl rfl)).2.1 rfl⟩

/-- C2: for a button code that is none of the four case labels, `showMessageCallback`
emits no outcome signal: the only signals are `closed(code)` and `closed()`, a warning
is logged after the debug line, no call is made on the Java side, and
`result_button_` is the raw code. -/
theorem showMessageCallback_unknown_code (codes : ButtonCodes) (self : QAndroidDialog)
    (button : Int)
    (hp : button ≠ codes.ANDROID_DIALOGINTERFACE_BUTTON_POSITIVE)
    (hn : button ≠ codes.ANDROID_DIALOGINTERFACE_BUTTON_NEGATIVE)
    (hu : button ≠ codes.ANDROID_DIALOGINTERFACE_BUTTON_NEUTRAL)
    (hz : button ≠ 0) :
    signals (self.showMessageCallback codes button).2 =
      [Signal.closed_int button, Signal.closed] ∧
    (∀ s ∈ signals (self.showMessageCallback codes button).2, s.isSpecific = false) ∧
    logLevels (self.showMessageCallback codes button).2 =
      [LogLevel.debug, LogLevel.warning] ∧
    Event.log .warning
        [.text "Unexpected button number in showMessageCallback:", .int button] ∈
      (self.showMessageCallback codes button).2 ∧
    hostCalls (self.showMessageCallback codes button).2 = [] ∧
    (self.showMessageCallback codes button).1.result_button_ = button := by
  have ho : outcomeSignal codes button = [] := by simp [outcomeSignal, *]
  refine ⟨?_, ?_, ?_, ?_, hostCalls_showMessageCallback codes self button, rfl⟩
  · rw [signals_showMessageCallback, ho]; rfl
  · rw [signals_showMessageCallback, ho]
    intro s hs
    simp at hs
    rcases hs with rfl | rfl <;> rfl
  · rw [logLevels_showMessageCallback, ho]; rfl
  · simp [QAndroidDialog.showMessageCallback, *]

/-- C2 at the Android codes with button code 5. -/
theorem showMessageCallback_unknown_code_witness :
    signals ((QAndroidDialog.mk (some 7) false 0).showMessageCallback androidCodes 5).2 =
      [Signal.closed_int 5, Signal.closed] ∧
    ((QAndroidDialog.mk (some 7) false 0).showMessageCallback androidCodes 5).1.result_button_
      = 5 :=
  have h := showMessageCallback_unknown_code androidCodes ⟨some 7, false, 0⟩ 5
    (by decide) (by decide) (by decide) (by decide)
  ⟨h.1, h.2.2.2.2.2⟩

/-- C3: when the interactive-mode flag is false, `showMessage` (each of its three
overloads) makes no call on the Java side whatever the arguments and whether or not
the helper handle exists; it writes three debug lines and nothing else, and the
bridge is unchanged. The flag is false after `setInteractiveMode(false)`. -/
theorem showMessage_noninteractive (st : Statics) (hi : st.interactive_ = false)
    (env : Environment) (self : QAndroidDialog)
    (title explanation positive_button_text negative_button_text neutral_button_text : QString)
    (pause lock_rotation : Bool) :
    (self.showMessage st env title explanation positive_button_text negative_button_text
        neutral_button_text pause lock_rotation =
      (self,
        [Event.log .debug [.text "Dialog was not shown due to non-interactive mode"],
         Event.log .debug [.text "title: \"", .qstring title, .text "\""],
         Event.log .debug [.text "explanation: ", .qstring explanation, .text "\""]])) ∧
    hostCalls (self.showMessage st env title explanation positive_button_text
      negative_button_text neutral_button_text pause lock_rotation).2 = [] ∧
    hostCalls (self.showMessage_2 st env title explanation positive_button_text
      negative_button_text pause lock_rotation).2 = [] ∧
    hostCalls (self.showMessage_1 st env title explanation positive_button_text
      pause lock_rotation).2 = [] ∧
    (∀ e ∈ (self.showMessage st env title explanation positive_button_text
        negative_button_text neutral_button_text pause lock_rotation).2,
      ∃ items, e = Event.log .debug items) ∧
    (∀ st0 : Statics, (setInteractiveMode st0 false).interactive_ = false) := by
  have hs : ∀ t e p n u, self.showMessage st env t e p n u pause lock_rotation =
      (self,
        [Event.log .debug [.text "Dialog was not shown due to non-interactive mode"],
         Event.log .debug [.text "title: \"", .qstring t, .text "\""],
         Event.log .debug [.text "explanation: ", .qstring e, .text "\""]]) := by
    intro t e p n u
    simp [QAndroidDialog.showMessage, isInteractiveMode, hi]
  refine ⟨hs _ _ _ _ _, ?_, ?_, ?_, ?_, ?_⟩
  · rw [hs]; rfl
  · unfold QAndroidDialog.showMessage_2; rw [hs]; rfl
  · unfold QAndroidDialog.showMessage_1; rw [hs]; rfl
  · rw [hs]
    intro e he
    simp at he
    rcases he with rfl | rfl | rfl <;> exact ⟨_, rfl⟩
  · intro st0
    exact isInteractiveMode_setInteractiveMode st0 false

/-- C3 on an enabled bridge after `setInteractiveMode(false)`. -/
theorem showMessage_noninteractive_witness :
    (setInteractiveMode Statics.initial false).interactive_ = false ∧
    hostCalls ((QAndroidDialog.mk (some 7) false 0).showMessage
      (setInteractiveMode Statics.initial false) ⟨false, 1⟩ (some "Update available")
      (some "A new version is ready.") (some "Install") (some "Later") none true true).2 = [] :=
  ⟨by decide,
   (showMessage_noninteractive (setInteractiveMode Statics.initial false) (by decide)
      ⟨false, 1⟩ ⟨some 7, false, 0⟩ (some "Update available")
      (some "A new version is ready.") (some "Install") (some "Later") none true true).2.1⟩

/-- C4: in interactive mode with a helper handle, `showMessage` makes exactly one call
on the Java side, `showMessage` on the handle, whose `in_activity` argument is "no
custom context set" and whose orientation argument is the current fixed orientation
when (`lock_rotation` or `pause`) holds and an activity is available, and -1 otherwise.
So it is -1 whenever a custom context is set, and -1 with `in_activity` true when
neither flag is set and no custom context is set. -/
theorem showMessage_host_call (st : Statics) (hi : st.interactive_ = true)
    (env : Environment) (self : QAndroidDialog) (h : Handle)
    (hh : self.dialog_helper_ = some h)
    (title explanation positive_button_text negative_button_text neutral_button_text : QString)
    (pause lock_rotation : Bool) :
    (self.showMessage st env title explanation positive_button_text negative_button_text
        neutral_button_text pause lock_rotation).2 =
      [Event.host (.showMessage h title explanation positive_button_text
        negative_button_text neutral_button_text pause
        (if (lock_rotation || pause) && !env.customContextSet
          then env.getCurrentFixedOrientation else -1)
        (!env.customContextSet))] ∧
    (env.customContextSet = true →
      hostShowMessageArgs (self.showMessage st env title explanation positive_button_text
        negative_button_text neutral_button_text pause lock_rotation).2 =
        [(pause, -1, false)]) ∧
    (env.customContextSet = false → pause = false → lock_rotation = false →
      hostShowMessageArgs (self.showMessage st env title explanation positive_button_text
        negative_button_text neutral_button_text pause lock_rotation).2 =
        [(false, -1, true)]) ∧
    (env.customContextSet = false → (pause = true ∨ lock_rotation = true) →
      hostShowMessageArgs (self.showMessage st env title explanation positive_button_text
        negative_button_text neutral_button_text pause lock_rotation).2 =
        [(pause, env.getCurrentFixedOrientation, true)]) := by
  have hs : (self.showMessage st env title explanation positive_button_text
        negative_button_text neutral_button_text pause lock_rotation).2 =
      [Event.host (.showMessage h title explanation positive_button_text
        negative_button_text neutral_button_text pause
        (if (lock_rotation || pause) && !env.customContextSet
          then env.getCurrentFixedOrientation else -1)
        (!env.customContextSet))] := by
    simp only [QAndroidDialog.showMessage, isInteractiveMode, hi, hh]
    cases pause <;> cases lock_rotation <;> simp
  refine ⟨hs, ?_, ?_, ?_⟩
  · intro hc
    rw [hs]; simp [hostShowMessageArgs, hc]
  · intro hc hp hl
    rw [hs]; simp [hostShowMessageArgs, hc, hp, hl]
  · intro hc hpl
    rw [hs]
    rcases hpl with hp | hl
    · simp [hostShowMessageArgs, hc, hp]
    · simp [hostShowMessageArgs, hc, hl]

/-- C4 on the scenario of the specification: no pause, no rotation lock, an activity
is available and the current orientation is portrait (1). -/
theorem showMessage_host_call_witness :
    Statics.initial.interactive_ = true ∧
    (QAndroidDialog.mk (some 7) false 0).dialog_helper_ = some 7 ∧
    hostShowMessageArgs ((QAndroidDialog.mk (some 7) false 0).showMessage Statics.initial
      ⟨false, 1⟩ (some "Update available") (some "A new version is ready.")
      (some "Install") (some "Later") none false false).2 = [(false, -1, true)] :=
  ⟨rfl, rfl,
   (showMessage_host_call Statics.initial rfl ⟨false, 1⟩ ⟨some 7, false, 0⟩ 7 rfl
      (some "Update available") (some "A new version is ready.") (some "Install")
      (some "Later") none false false).2.2.1 rfl rfl rfl⟩

/-- C5: with `pause` true the caller's `lock_rotation` has no influence: `showMessage`
with `lock_rotation` false gives the same result and effects as with `lock_rotation`
true, and in interactive mode with a helper handle and an activity available the
orientation argument of the call is the current fixed orientation, which differs
from -1 whenever the resolver's answer does. -/
theorem showMessage_pause_locks_rotation (st : Statics) (env : Environment)
    (self : QAndroidDialog)
    (title explanation positive_button_text negative_button_text neutral_button_text : QString)
    (lock_rotation : Bool) :
    (self.showMessage st env title explanation positive_button_text negative_button_text
        neutral_button_text true false =
      self.showMessage st env title explanation positive_button_text negative_button_text
        neutral_button_text true true) ∧
    (st.interactive_ = true → self.dialog_helper_.isSome = true →
      env.customContextSet = false →
      hostShowMessageArgs (self.showMessage st env title explanation positive_button_text
        negative_button_text neutral_button_text true lock_rotation).2 =
        [(true, env.getCurrentFixedOrientation, true)]) := by
  constructor
  · simp [QAndroidDialog.showMessage]
  · intro hi hh hc
    cases hd : self.dialog_helper_ with
    | none => simp [hd] at hh
    | some h =>
      simp [QAndroidDialog.showMessage, isInteractiveMode, hi, hd, hc, hostShowMessageArgs]

/-- C5 on the scenario of the specification with `pause` true and portrait (1) as the
current orientation. -/
theorem showMessage_pause_locks_rotation_witness :
    hostShowMessageArgs ((QAndroidDialog.mk (some 7) false 0).showMessage Statics.initial
      ⟨false, 1⟩ (some "Update available") (some "A new version is ready.")
      (some "Install") (some "Later") none true false).2 = [(true, 1, true)] :=
  (showMessage_pause_locks_rotation Statics.initial ⟨false, 1⟩ ⟨some 7, false, 0⟩
    (some "Update available") (some "A new version is ready.") (some "Install")
    (some "Later") none false).2 rfl rfl rfl

/-- C6, as the claim states it, fails: on a bridge whose helper could not be created,
`showMessage` in non-interactive mode writes no critical log line (only the three debug
lines of the suppressed request). -/
theorem showMessage_disabled_noninteractive_no_critical :
    (QAndroidDialog.constructor Statics.initial 4096 none).2.1.dialog_helper_ = none ∧
    logLevels (((QAndroidDialog.constructor Statics.initial 4096 none).2.1).showMessage
      (setInteractiveMode (QAndroidDialog.constructor Statics.initial 4096 none).1 false)
      ⟨false, 1⟩ (some "Update available") (some "A new version is ready.")
      (some "Install") (some "Later") none false false).2 =
      [LogLevel.debug, LogLevel.debug, LogLevel.debug] ∧
    LogLevel.critical ∉
      logLevels (((QAndroidDialog.constructor Statics.initial 4096 none).2.1).showMessage
        (setInteractiveMode (QAndroidDialog.constructor Statics.initial 4096 none).1 false)
        ⟨false, 1⟩ (some "Update available") (some "A new version is ready.")
        (some "Install") (some "Later") none false false).2 := by
  decide

/-- C6, amended: when the Java object cannot be created the constructor logs a critical
error and leaves no helper handle; no sequence of later operations restores a handle or
makes a call on the Java side; and every `showMessage` on a bridge without handle leaves
the bridge unchanged, calls nothing on the Java side, emits no signal, and logs exactly
the critical error in interactive mode (in non-interactive mode exactly the three debug
lines). -/
theorem constructor_failure_disables (codes : ButtonCodes) (st : Statics) (this : Int) :
    (QAndroidDialog.constructor st this none).2.1.dialog_helper_ = none ∧
    Event.log .critical [.text "Failed to create DialogHelper instance!"] ∈
      (QAndroidDialog.constructor st this none).2.2 ∧
    (∀ ops : List Op,
      (run codes ((QAndroidDialog.constructor st this none).1,
        (QAndroidDialog.constructor st this none).2.1) ops).1.2.dialog_helper_ = none ∧
      hostCalls (run codes ((QAndroidDialog.constructor st this none).1,
        (QAndroidDialog.constructor st this none).2.1) ops).2 = []) ∧
    (∀ (st1 : Statics) (env : Environment) (self : QAndroidDialog)
      (title explanation positive_button_text negative_button_text
        neutral_button_text : QString) (pause lock_rotation : Bool),
      self.dialog_helper_ = none →
      (self.showMessage st1 env title explanation positive_button_text
        negative_button_text neutral_button_text pause lock_rotation).1 = self ∧
      hostCalls (self.showMessage st1 env title explanation positive_button_text
        negative_button_text neutral_button_text pause lock_rotation).2 = [] ∧
      signals (self.showMessage st1 env title explanation positive_button_text
        negative_button_text neutral_button_text pause lock_rotation).2 = [] ∧
      (st1.interactive_ = true →
        (self.showMessage st1 env title explanation positive_button_text
          negative_button_text neutral_button_text pause lock_rotation).2 =
          [Event.log .critical
            [.text "Failed to show message because DialogHelper instance not created!"]]) ∧
      (st1.interactive_ = false →
        logLevels (self.showMessage st1 env title explanation positive_button_text
          negative_button_text neutral_button_text pause lock_rotation).2 =
          [LogLevel.debug, LogLevel.debug, LogLevel.debug])) := by
  refine ⟨rfl, ?_, ?_, ?_⟩
  · simp [QAndroidDialog.constructor]
  · intro ops
    exact run_disabled codes ops _ rfl
  · intro st1 env self t e p n u pause lock hn
    have h := showMessage_disabled st1 env self hn t e p n u pause lock
    refine ⟨h.1, h.2.1, h.2.2, ?_, ?_⟩
    · intro hi
      simp [QAndroidDialog.showMessage, isInteractiveMode, hi, hn]
    · intro hi
      simp [QAndroidDialog.showMessage, isInteractiveMode, hi, logLevels]

/-- C6 amended, on a failed construction followed by a show request in interactive
mode. -/
theorem constructor_failure_disables_witness :
    (QAndroidDialog.constructor Statics.initial 4096 none).2.1.dialog_helper_ = none ∧
    Statics.initial.interactive_ = true ∧
    ((QAndroidDialog.constructor Statics.initial 4096 none).2.1.showMessage Statics.initial
      ⟨false, 1⟩ (some "Update available") (some "A new version is ready.")
      (some "Install") (some "Later") none false false).2 =
      [Event.log .critical
        [.text "Failed to show message because DialogHelper instance not created!"]] :=
  ⟨rfl, rfl,
   ((constructor_failure_disables androidCodes Statics.initial 4096).2.2.2 Statics.initial
      ⟨false, 1⟩ (QAndroidDialog.constructor Statics.initial 4096 none).2.1
      (some "Update available") (some "A new version is ready.")
      (some "Install") (some "Later") none false false rfl).2.2.2.1 rfl⟩

/-- C7, as the claim states it, fails: after a bridge is constructed at address 4096 and
destroyed, the entry point called with identity 4096 does not drop the event. Its
parameter is non-zero, so it invokes the dispatcher through the pointer of the destroyed
object; there is no result in which the state is unchanged and no signal is emitted. -/
theorem stale_identity_callback_not_dropped :
    ∃ heap2 evs,
      destroy (construct Statics.initial Heap.empty 4096 (some 7)).2.1 4096 =
        some (heap2, evs) ∧
      heap2 4096 = none ∧
      Java_DialogHelper_DialogHelper_showMessageCallback androidCodes heap2 4096 (-1) = none ∧
      ¬ ∃ heap3 evs3,
        Java_DialogHelper_DialogHelper_showMessageCallback androidCodes heap2 4096 (-1) =
          some (heap3, evs3) ∧ signals evs3 = [] := by
  refine ⟨_, _, rfl, ?_, ?_, ?_⟩
  · simp [Heap.set]
  · simp [Java_DialogHelper_DialogHelper_showMessageCallback, Heap.set]
  · simp [Java_DialogHelper_DialogHelper_showMessageCallback, Heap.set]

/-- C7, amended: after construct and destroy no object lives at the address, the
destructor of a bridge with a helper has told the helper `cppDestroyed` before releasing
it, and a later callback that carries identity 0 leaves the whole heap unchanged and
emits no signal (it only logs the warning). -/
theorem destroyed_then_zero_identity_callback (codes : ButtonCodes) (st : Statics)
    (heap : Heap) (this : Int) (jObject : Option Handle) (button : Int) :
    ∃ heap2 evs,
      destroy (construct st heap this jObject).2.1 this = some (heap2, evs) ∧
      heap2 this = none ∧
      (∀ h, jObject = some h →
        evs = [Event.host (.cppDestroyed h), Event.host (.release h)]) ∧
      Java_DialogHelper_DialogHelper_showMessageCallback codes heap2 0 button =
        some (heap2, [zeroParamWarning button]) ∧
      signals [zeroParamWarning button] = [] := by
  refine ⟨((construct st heap this jObject).2.1).set this none,
    ((QAndroidDialog.constructor st this jObject).2.1).destructor.2, ?_, ?_, ?_, ?_, rfl⟩
  · simp [destroy, construct, Heap.set]
  · simp [Heap.set]
  · intro h hj
    subst hj
    rfl
  · simp [Java_DialogHelper_DialogHelper_showMessageCallback]

/-- C7 amended, on a bridge constructed at address 4096 with helper 7. -/
theorem destroyed_then_zero_identity_callback_witness :
    ∃ heap2 evs,
      destroy (construct Statics.initial Heap.empty 4096 (some 7)).2.1 4096 =
        some (heap2, evs) ∧
      evs = [Event.host (.cppDestroyed 7), Event.host (.release 7)] ∧
      Java_DialogHelper_DialogHelper_showMessageCallback androidCodes heap2 0 (-1) =
        some (heap2, [zeroParamWarning (-1)]) :=
  match destroyed_then_zero_identity_callback androidCodes Statics.initial Heap.empty 4096
      (some 7) (-1) with
  | ⟨heap2, evs, h1, _, h3, h4, _⟩ => ⟨heap2, evs, h1, h3 7 rfl, h4⟩

/-- C8: `showMessageCallback` requests `deleteLater()` exactly when
`delete_self_on_close_` is set; the request is then the last effect, it occurs once,
and all signals (the outcome signal if any, `closed(code)`, `closed()`) are emitted
before it. The callback makes no call on the Java side (in particular none of the
destructor), keeps the helper handle, and the object still lives at its address when
the entry point returns. -/
theorem showMessageCallback_deleteLater (codes : ButtonCodes) (self : QAndroidDialog)
    (button : Int) :
    (Event.deleteLater ∈ (self.showMessageCallback codes button).2 ↔
      self.delete_self_on_close_ = true) ∧
    (self.delete_self_on_close_ = true →
      ∃ before, (self.showMessageCallback codes button).2 = before ++ [Event.deleteLater] ∧
        Event.deleteLater ∉ before ∧
        signals before =
          outcomeSignal codes button ++ [Signal.closed_int button, Signal.closed]) ∧
    hostCalls (self.showMessageCallback codes button).2 = [] ∧
    (self.showMessageCallback codes button).1.dialog_helper_ = self.dialog_helper_ ∧
    (self.showMessageCallback codes button).1.delete_self_on_close_ =
      self.delete_self_on_close_ ∧
    (∀ (heap : Heap) (param : Int), param ≠ 0 → heap param = some self →
      ∃ heap2 evs,
        Java_DialogHelper_DialogHelper_showMessageCallback codes heap param button =
          some (heap2, evs) ∧
        heap2 param = some (self.showMessageCallback codes button).1) := by
  refine ⟨?_, ?_, hostCalls_showMessageCallback codes self button, rfl, rfl, ?_⟩
  · unfold QAndroidDialog.showMessageCallback
    cases self.delete_self_on_close_
    · simp
      split_ifs <;> simp
    · simp
  · intro hdel
    refine ⟨[Event.log .debug [.text "showMessageCallback", .int button]] ++
      (self.showMessageCallback codes button).2.tail.dropLast, ?_, ?_, ?_⟩
    · unfold QAndroidDialog.showMessageCallback
      simp only [hdel]
      split_ifs <;> rfl
    · unfold QAndroidDialog.showMessageCallback
      simp only [hdel]
      split_ifs <;> simp
    · unfold QAndroidDialog.showMessageCallback outcomeSignal
      simp only [hdel]
      split_ifs <;> simp [signals]
  · intro heap param hp hl
    refine ⟨_, _, callback_on_live_object codes heap param button self hp hl, ?_⟩
    simp [Heap.set]

/-- C8 on a bridge with the self-destruct flag set, positive button. -/
theorem showMessageCallback_deleteLater_witness :
    (QAndroidDialog.mk (some 7) true 0).delete_self_on_close_ = true ∧
    ∃ before,
      ((QAndroidDialog.mk (some 7) true 0).showMessageCallback androidCodes (-1)).2 =
        before ++ [Event.deleteLater] ∧
      Event.deleteLater ∉ before ∧
      signals before =
        outcomeSignal androidCodes (-1) ++ [Signal.closed_int (-1), Signal.closed] :=
  ⟨rfl, (showMessageCallback_deleteLater androidCodes ⟨some 7, true, 0⟩ (-1)).2.1 rfl⟩

/-- C9: called with identity `param = 0` the entry point
`Java_DialogHelper_DialogHelper_showMessageCallback` drops the event for every button
code: the heap (every bridge, with its last result) is unchanged, the only effect is one
warning, no signal is emitted. Called with the non-zero address of a live bridge it
performs exactly `showMessageCallback(button)` on that bridge and touches no other. -/
theorem callback_entry_point (codes : ButtonCodes) (heap : Heap) (button : Int) :
    Java_DialogHelper_DialogHelper_showMessageCallback codes heap 0 button =
      some (heap, [zeroParamWarning button]) ∧
    signals [zeroParamWarning button] = [] ∧
    hostCalls [zeroParamWarning button] = [] ∧
    logLevels [zeroParamWarning button] = [LogLevel.warning] ∧
    (∀ (param : Int) (obj : QAndroidDialog), param ≠ 0 → heap param = some obj →
      ∃ heap2,
        Java_DialogHelper_DialogHelper_showMessageCallback codes heap param button =
          some (heap2, (obj.showMessageCallback codes button).2) ∧
        heap2 param = some (obj.showMessageCallback codes button).1 ∧
        ∀ other, other ≠ param → heap2 other = heap other) := by
  refine ⟨?_, rfl, rfl, rfl, ?_⟩
  · simp [Java_DialogHelper_DialogHelper_showMessageCallback]
  · intro param obj hp hl
    refine ⟨_, callback_on_live_object codes heap param button obj hp hl, ?_, ?_⟩
    · simp [Heap.set]
    · intro other ho
      simp [Heap.set, ho]

/-- C9 on a heap with one live bridge at address 4096, negative button. -/
theorem callback_entry_point_witness :
    (4096 : Int) ≠ 0 ∧
    ∃ heap2,
      Java_DialogHelper_DialogHelper_showMessageCallback androidCodes
          (Heap.empty.set 4096 (some ⟨some 7, false, 0⟩)) 4096 (-2) =
        some (heap2,
          ((QAndroidDialog.mk (some 7) false 0).showMessageCallback androidCodes (-2)).2) ∧
      heap2 4096 =
        some ((QAndroidDialog.mk (some 7) false 0).showMessageCallback androidCodes (-2)).1 :=
  ⟨by decide,
   match (callback_entry_point androidCodes (Heap.empty.set 4096 (some ⟨some 7, false, 0⟩))
      (-2)).2.2.2.2 4096 ⟨some 7, false, 0⟩ (by decide) (by simp [Heap.set]) with
   | ⟨heap2, h1, h2, _⟩ => ⟨heap2, h1, h2⟩⟩

/-- C10: the destructor of a bridge with a helper handle makes exactly two calls on the
Java side, `cppDestroyed` on the helper and then the release of the handle, and leaves
the pointer null; the destructor of a bridge without handle has no effect at all. -/
theorem destructor_order (self : QAndroidDialog) :
    (∀ h, self.dialog_helper_ = some h →
      self.destructor.2 = [Event.host (.cppDestroyed h), Event.host (.release h)] ∧
      hostCalls self.destructor.2 = [HostCall.cppDestroyed h, HostCall.release h] ∧
      self.destructor.1.dialog_helper_ = none) ∧
    (self.dialog_helper_ = none →
      self.destructor.2 = [] ∧ hostCalls self.destructor.2 = [] ∧
      self.destructor.1 = self) := by
  constructor
  · intro h hh
    simp [QAndroidDialog.destructor, hh, hostCalls]
  · intro hn
    simp [QAndroidDialog.destructor, hn, hostCalls]

/-- C10 on a bridge with helper 7 and on a bridge whose construction failed. -/
theorem destructor_order_witness :
    hostCalls (QAndroidDialog.mk (some 7) false 0).destructor.2 =
      [HostCall.cppDestroyed 7, HostCall.release 7] ∧
    hostCalls (QAndroidDialog.constructor Statics.initial 4096 none).2.1.destructor.2 = [] :=
  ⟨((destructor_order ⟨some 7, false, 0⟩).1 7 rfl).2.1,
   ((destructor_order (QAndroidDialog.constructor Statics.initial 4096 none).2.1).2 rfl).2.1⟩

end QtAndroidHelpers
